import Mathlib

/-!
Verification of the web-monitoring scraping orchestrator and alert engine.

The definitions below are a shallow embedding of `worker.py`
(`scrape_project`), `services/alerts.py` (`AlertEngine`),
`services/gemini.py` (`GeminiAnalyzer`) and the persisted rows of
`models.py`.  Scores, thresholds and timestamps are exact rationals;
timestamps are hours on one shared clock, so the SQL interval predicates
(`NOW() - INTERVAL '24 hours'` and so on) become rational comparisons
against `now`.  The database is explicit state: article rows are a list,
`INSERT ... ON CONFLICT (url) DO NOTHING` is an insert-if-absent on that
list, and each SQL aggregate is the corresponding list computation.
-/

namespace WebMonitor

/-- A persisted article row (table `articles`, models.py).  `url` is the
globally unique dedup key; `sentimentScore` is nullable. -/
structure StoredArticle where
  projectId : Nat
  url : String
  scrapedAt : Rat
  sentiment : Option String
  sentimentScore : Option Rat
  relevanceScore : Option Rat
  deriving DecidableEq

/-- The save loop's `INSERT INTO articles ... ON CONFLICT (url) DO NOTHING`
(worker.py), backed by the unique constraint on `Article.url` (models.py):
if any row already carries the URL the statement is a no-op reporting no
row created; otherwise the row is appended and reported created
(`cursor.rowcount > 0`). -/
def insertIfAbsent (store : List StoredArticle) (row : StoredArticle) :
    List StoredArticle × Bool :=
  if store.any (fun r => r.url == row.url) then (store, false)
  else (store ++ [row], true)

/-- Number of stored rows carrying a given URL. -/
def countUrl (store : List StoredArticle) (u : String) : Nat :=
  (store.filter (fun r => r.url == u)).length

/-- An alert row (table `alerts`, models.py). -/
structure Alert where
  id : Nat
  projectId : Nat
  atype : String
  threshold : Rat
  isActive : Bool
  deriving DecidableEq

def ratSum : List Rat → Rat
  | [] => 0
  | x :: xs => x + ratSum xs

/-- SQL `AVG` over a list of values (0 on the empty list, where SQL would
return NULL; callers check for the empty case first). -/
def ratAvg (l : List Rat) : Rat := ratSum l / (l.length : Rat)

/-- The spike query's count: the project's article rows scraped in the
last 7 days (168 hours). -/
def spikeWindowCount (arts : List StoredArticle) (pid : Nat) (now : Rat) : Nat :=
  (arts.filter (fun a => a.projectId == pid && decide (now - 168 ≤ a.scrapedAt))).length

/-- `avg_daily` of `AlertEngine.check_spike_alerts`: `COUNT(*)::float / 7`
over the 7-day window. -/
def spikeAvgDaily (arts : List StoredArticle) (pid : Nat) (now : Rat) : Rat :=
  (spikeWindowCount arts pid now : Rat) / 7

/-- The alert rows the engine's `SELECT` returns: the project's active
alerts of one type. -/
def activeAlertsOf (alerts : List Alert) (pid : Nat) (t : String) : List Alert :=
  alerts.filter (fun al => al.projectId == pid && al.atype == t && al.isActive)

/-- `AlertEngine.check_spike_alerts`: the alerts it triggers.  An active
`spike_detection` alert triggers when `new_articles > avg_daily * threshold`. -/
def checkSpikeAlerts (arts : List StoredArticle) (pid : Nat) (now : Rat)
    (newArticles : Nat) (alerts : List Alert) : List Alert :=
  (activeAlertsOf alerts pid "spike_detection").filter
    (fun al => decide ((newArticles : Rat) > spikeAvgDaily arts pid now * al.threshold))

/-- The non-null sentiment scores of the project's rows scraped in the
last 24 hours (the recent-sentiment query of
`AlertEngine.check_sentiment_alerts`). -/
def recent24Scores (arts : List StoredArticle) (pid : Nat) (now : Rat) : List Rat :=
  (arts.filter (fun a => a.projectId == pid && decide (now - 24 ≤ a.scrapedAt))).filterMap
    (fun a => a.sentimentScore)

/-- The non-null sentiment scores of the project's rows scraped between 30
days and 24 hours ago (the historical-sentiment query). -/
def histScores (arts : List StoredArticle) (pid : Nat) (now : Rat) : List Rat :=
  (arts.filter (fun a => a.projectId == pid
      && decide (now - 720 ≤ a.scrapedAt) && decide (a.scrapedAt < now - 24))).filterMap
    (fun a => a.sentimentScore)

/-- `recent_score` of `check_sentiment_alerts`:
`recent['avg_sentiment'] if recent and recent['avg_sentiment'] else None`.
The SQL `AVG` is NULL on an empty window, and the Python truthiness test
also maps an average of exactly 0.0 to `None`. -/
def recentScore (arts : List StoredArticle) (pid : Nat) (now : Rat) : Option Rat :=
  let s := recent24Scores arts pid now
  if s = [] then none
  else if ratAvg s = 0 then none
  else some (ratAvg s)

/-- `historical_score`: the 30-day-to-24-hour average, with NULL (empty
window) and the falsy 0.0 both collapsing to 0. -/
def historicalScore (arts : List StoredArticle) (pid : Nat) (now : Rat) : Rat :=
  let s := histScores arts pid now
  if s = [] then 0
  else if ratAvg s = 0 then 0
  else ratAvg s

/-- `AlertEngine.check_sentiment_alerts`: the triggered alerts paired with
the reported direction (`true` = positive trend, i.e. recent > historical).
When `recentScore` is `None` the method returns before touching any alert. -/
def checkSentimentAlerts (arts : List StoredArticle) (pid : Nat) (now : Rat)
    (alerts : List Alert) : List (Alert × Bool) :=
  match recentScore arts pid now with
  | none => []
  | some r =>
    let h := historicalScore arts pid now
    ((activeAlertsOf alerts pid "sentiment_shift").filter
        (fun al => decide (|r - h| > al.threshold))).map
      (fun al => (al, decide (r > h)))

/-- The alerts the sentiment detector's loop examines at all: none when
the detector returns early. -/
def sentimentAlertsEvaluated (arts : List StoredArticle) (pid : Nat) (now : Rat)
    (alerts : List Alert) : List Alert :=
  match recentScore arts pid now with
  | none => []
  | some _ => activeAlertsOf alerts pid "sentiment_shift"

/-- Whether the sentiment detector proceeds past its early return. -/
def sentimentDetectorRuns (arts : List StoredArticle) (pid : Nat) (now : Rat) : Bool :=
  (recentScore arts pid now).isSome

/-- A candidate article as returned by the search provider. -/
structure RawArticle where
  url : String
  title : String
  snippet : String
  deriving DecidableEq

/-- The per-article annotations produced by the analysis provider. -/
structure AnalysisResult where
  sentiment : String
  sentimentScore : Rat
  topics : List String
  summary : String
  relevanceScore : Rat
  deriving DecidableEq

/-- The neutral default annotation `analyze_single_article` substitutes
when the provider call fails (and that `scrape_project` uses for every
article when no analysis key is configured). -/
def neutralAnalysis (a : RawArticle) : AnalysisResult :=
  { sentiment := "neutral", sentimentScore := 0, topics := [],
    summary := a.snippet.take 200, relevanceScore := 50 }

/-- `GeminiAnalyzer.analyze_single_article`: the provider's annotations on
success, the neutral default when the call raises. -/
def analyzeSingleArticle (outcome : Option AnalysisResult) (a : RawArticle) :
    AnalysisResult :=
  match outcome with
  | some r => r
  | none => neutralAnalysis a

/-- A raw article together with its annotations, as merged by the
analysis step. -/
structure AnalyzedArticle where
  raw : RawArticle
  ann : AnalysisResult
  deriving DecidableEq

/-- `GeminiAnalyzer.batch_analyze_articles`: the strictly sequential loop;
the item at position `j` of the list gets the provider outcome for call
`k + j`. -/
def batchAnalyzeFrom (oc : Nat → Option AnalysisResult) (k : Nat) :
    List RawArticle → List AnalyzedArticle
  | [] => []
  | a :: rest =>
    { raw := a, ann := analyzeSingleArticle (oc k) a } :: batchAnalyzeFrom oc (k + 1) rest

def batchAnalyzeArticles (oc : Nat → Option AnalysisResult) (arts : List RawArticle) :
    List AnalyzedArticle :=
  batchAnalyzeFrom oc 0 arts

/-- The row the save loop inserts for one analyzed article. -/
def toStoredRow (pid : Nat) (now : Rat) (a : AnalyzedArticle) : StoredArticle :=
  { projectId := pid, url := a.raw.url, scrapedAt := now,
    sentiment := some a.ann.sentiment,
    sentimentScore := some a.ann.sentimentScore,
    relevanceScore := some a.ann.relevanceScore }

/-- The save loop of `scrape_project`: every analyzed article is offered
to `insertIfAbsent`; a per-item persistence error (`persistErr i = true`
for the item of index `i`) is caught and the item skipped;
`new_articles` counts only the inserts that created a row. -/
def saveLoop (persistErr : Nat → Bool) (pid : Nat) (now : Rat) (i : Nat) :
    List AnalyzedArticle → List StoredArticle → List StoredArticle × Nat
  | [], store => (store, 0)
  | a :: rest, store =>
    if persistErr i then saveLoop persistErr pid now (i + 1) rest store
    else
      let r := insertIfAbsent store (toStoredRow pid now a)
      let t := saveLoop persistErr pid now (i + 1) rest r.1
      (t.1, (if r.2 then 1 else 0) + t.2)

/-- The lifecycle states of a `scraping_jobs` row. -/
inductive JobStatus where
  | running
  | completed
  | failed
  deriving DecidableEq

/-- The distinct raise sites of one `scrape_project` attempt. -/
inductive ScrapeError where
  | projectNotFound
  | noSearchTerms
  | missingSearchCreds
  | providerFailure (msg : String)
  deriving DecidableEq

/-- The errors the design classes as configuration errors (missing or
inactive project, empty term set, missing provider credentials), as
opposed to a provider failure. -/
def ScrapeError.isConfig : ScrapeError → Bool
  | .projectNotFound => true
  | .noSearchTerms => true
  | .missingSearchCreds => true
  | .providerFailure _ => false

/-- The project row `scrape_project` loads (already filtered to
`status = 'active'` by its query). -/
structure ProjectCfg where
  name : String
  brand : String
  market : String
  deriving DecidableEq

/-- The search provider's response. -/
structure SearchOutcome where
  success : Bool
  articles : List RawArticle
  apiCalls : Nat
  errMsg : String
  deriving DecidableEq

/-- Everything one `scrape_project` attempt reads: the project row (None
when missing or inactive), its keywords and competitors, the credential
environment, the provider responses, the per-item analysis and
persistence outcomes, the pre-existing article store and the clock. -/
structure ScrapeEnv where
  projectId : Nat
  project : Option ProjectCfg
  keywords : List String
  competitors : List String
  hasSearchCreds : Bool
  search : SearchOutcome
  hasGeminiKey : Bool
  analysisOutcome : Nat → Option AnalysisResult
  persistErr : Nat → Bool
  store : List StoredArticle
  now : Rat

/-- What one attempt did: the job row's status history (it is created
`running` and updated once), the returned counts, the schedule update
(`none` = the `schedules` row was not touched) and the article store it
leaves behind. -/
structure ScrapeResult where
  statusTrace : List JobStatus
  jobStatus : JobStatus
  jobError : Option ScrapeError
  succeeded : Bool
  newArticles : Nat
  totalFound : Nat
  scheduleNextRun : Option Rat
  store : List StoredArticle

/-- `all_terms = [project['brand']] + keywords + competitors`. -/
def allSearchTerms (p : ProjectCfg) (keywords competitors : List String) :
    List String :=
  p.brand :: (keywords ++ competitors)

/-- The exception path of `scrape_project`: the job row is flipped from
`running` to `failed` with the error recorded; nothing else is written. -/
def failedRun (env : ScrapeEnv) (e : ScrapeError) : ScrapeResult :=
  { statusTrace := [JobStatus.running, JobStatus.failed],
    jobStatus := JobStatus.failed, jobError := some e, succeeded := false,
    newArticles := 0, totalFound := 0, scheduleNextRun := none,
    store := env.store }

/-- One attempt of `worker.scrape_project`.  A job row is created in the
`running` state; a missing or inactive project, an empty term set, missing
search credentials or a failed search raise and mark the job `failed`.
When the provider returns zero articles the job is marked `completed`
with zero counts and the function returns early.  Otherwise every article
is analyzed (all-neutral defaults when no analysis key is configured),
the save loop runs, the job is marked `completed` with the counts and the
schedule is advanced by the fixed 6-hour interval. -/
def scrapeProject (env : ScrapeEnv) : ScrapeResult :=
  match env.project with
  | none => failedRun env ScrapeError.projectNotFound
  | some p =>
    if (allSearchTerms p env.keywords env.competitors).isEmpty then
      failedRun env ScrapeError.noSearchTerms
    else if !env.hasSearchCreds then
      failedRun env ScrapeError.missingSearchCreds
    else if !env.search.success then
      failedRun env (ScrapeError.providerFailure env.search.errMsg)
    else if env.search.articles.isEmpty then
      { statusTrace := [JobStatus.running, JobStatus.completed],
        jobStatus := JobStatus.completed, jobError := none, succeeded := true,
        newArticles := 0, totalFound := 0, scheduleNextRun := none,
        store := env.store }
    else
      let analyzed :=
        if env.hasGeminiKey then
          batchAnalyzeArticles env.analysisOutcome env.search.articles
        else
          env.search.articles.map (fun a => { raw := a, ann := neutralAnalysis a })
      let saved := saveLoop env.persistErr env.projectId env.now 0 analyzed env.store
      { statusTrace := [JobStatus.running, JobStatus.completed],
        jobStatus := JobStatus.completed, jobError := none, succeeded := true,
        newArticles := saved.2, totalFound := env.search.articles.length,
        scheduleNextRun := some (env.now + 6), store := saved.1 }

/-- `max_retries=3` from the task registration of `scrape_project`. -/
def scrapeMaxRetries : Nat := 3

/-- The fixed retry countdown, seconds: `countdown=300` at the retry site
(matching `default_retry_delay=300` at registration). -/
def scrapeRetryDelay : Nat := 300

/-- The task queue's retry loop for `scrape_project`: run the attempt;
when it fails with retries remaining, wait `scrapeRetryDelay` seconds and
re-invoke.  Returns the number of executions and the list of delays
observed before each re-invocation. -/
def runAttempts (failsAt : Nat → Bool) (attempt : Nat) :
    Nat → Nat × List Nat
  | 0 => (1, [])
  | n + 1 =>
    if failsAt attempt then
      let rest := runAttempts failsAt (attempt + 1) n
      (rest.1 + 1, scrapeRetryDelay :: rest.2)
    else (1, [])

/-- A full task delivery: the initial execution with up to
`scrapeMaxRetries` retries. -/
def retryOutcome (failsAt : Nat → Bool) : Nat × List Nat :=
  runAttempts failsAt 0 scrapeMaxRetries

/-! Concrete inputs used to instantiate the theorems below. -/

/-- An article row with the given project, URL, scrape time and score. -/
def mkRow (pid : Nat) (u : String) (t : Rat) (score : Option Rat) : StoredArticle :=
  { projectId := pid, url := u, scrapedAt := t, sentiment := none,
    sentimentScore := score, relevanceScore := none }

def spikeDemoRow : StoredArticle := mkRow 1 "x" 999 none

/-- 14 articles of project 1 scraped inside the 7-day window: at
`now = 1000` the 7-day average is `14 / 7 = 2`. -/
def spikeDemoDb : List StoredArticle :=
  [spikeDemoRow, spikeDemoRow, spikeDemoRow, spikeDemoRow, spikeDemoRow,
   spikeDemoRow, spikeDemoRow, spikeDemoRow, spikeDemoRow, spikeDemoRow,
   spikeDemoRow, spikeDemoRow, spikeDemoRow, spikeDemoRow]

def spikeDemoAlert : Alert :=
  { id := 1, projectId := 1, atype := "spike_detection", threshold := 3/2,
    isActive := true }

/-- One scored article in the 24-hour window whose score is exactly 0, and
one older article scoring `1/2`: at `now = 1000` the recent average is 0. -/
def zeroScoreDb : List StoredArticle :=
  [mkRow 1 "a" 999 (some 0), mkRow 1 "b" 952 (some (1/2))]

def sentimentDemoAlert : Alert :=
  { id := 2, projectId := 1, atype := "sentiment_shift", threshold := 3/10,
    isActive := true }

/-- The spec boundary example: recent average `+0.50`, historical `-0.10`. -/
def specDemoDb : List StoredArticle :=
  [mkRow 1 "r1" 999 (some (1/2)), mkRow 1 "h1" 952 (some (-1/10))]

def demoRaw (i : Nat) : RawArticle :=
  { url := String.append "u" (toString i), title := "t", snippet := "s" }

def goodAnalysis : AnalysisResult :=
  { sentiment := "positive", sentimentScore := 1/2, topics := [],
    summary := "ok", relevanceScore := 80 }

/-- An attempt that finds 10 articles and whose analysis call fails for
the first 3 of them. -/
def c6Env : ScrapeEnv :=
  { projectId := 1, project := some { name := "p", brand := "b", market := "IT" },
    keywords := [], competitors := [], hasSearchCreds := true,
    search := { success := true, articles := (List.range 10).map demoRaw,
                apiCalls := 1, errMsg := "" },
    hasGeminiKey := true,
    analysisOutcome := fun i => if i < 3 then none else some goodAnalysis,
    persistErr := fun _ => false, store := [], now := 1000 }

/-- An attempt whose search succeeds but returns zero articles. -/
def emptySearchEnv : ScrapeEnv :=
  { projectId := 1, project := some { name := "p", brand := "b", market := "IT" },
    keywords := [], competitors := [], hasSearchCreds := true,
    search := { success := true, articles := [], apiCalls := 1, errMsg := "" },
    hasGeminiKey := false, analysisOutcome := fun _ => none,
    persistErr := fun _ => false, store := [], now := 1000 }

/-- An attempt whose search returns one article. -/
def oneArticleEnv : ScrapeEnv :=
  { projectId := 1, project := some { name := "p", brand := "b", market := "IT" },
    keywords := [], competitors := [], hasSearchCreds := true,
    search := { success := true, articles := [demoRaw 0], apiCalls := 1, errMsg := "" },
    hasGeminiKey := false, analysisOutcome := fun _ => none,
    persistErr := fun _ => false, store := [], now := 1000 }

/-- Two rows sharing the URL "u" but otherwise different. -/
def urlRowA : StoredArticle := mkRow 1 "u" 10 none

def urlRowB : StoredArticle := mkRow 2 "u" 20 (some 0)

/-! Helper lemmas. -/

theorem insertIfAbsent_dup (store : List StoredArticle) (row : StoredArticle)
    (h : ∃ r ∈ store, r.url = row.url) :
    insertIfAbsent store row = (store, false) := by
  obtain ⟨r, hr, hu⟩ := h
  have hany : store.any (fun r => r.url == row.url) = true :=
    List.any_eq_true.mpr ⟨r, hr, beq_iff_eq.mpr hu⟩
  simp [insertIfAbsent, hany]

theorem insertIfAbsent_fresh (store : List StoredArticle) (row : StoredArticle)
    (h : ∀ r ∈ store, r.url ≠ row.url) :
    insertIfAbsent store row = (store ++ [row], true) := by
  have hany : store.any (fun r => r.url == row.url) = false := by
    cases hval : store.any (fun r => r.url == row.url) with
    | false => rfl
    | true =>
      obtain ⟨r, hr, hb⟩ := List.any_eq_true.mp hval
      exact absurd (eq_of_beq hb) (h r hr)
  simp [insertIfAbsent, hany]

theorem insertIfAbsent_length (store : List StoredArticle) (row : StoredArticle) :
    (insertIfAbsent store row).1.length
      = store.length + (if (insertIfAbsent store row).2 then 1 else 0) := by
  unfold insertIfAbsent
  split <;> simp

theorem mem_activeAlertsOf (alerts : List Alert) (pid : Nat) (t : String)
    (al : Alert) :
    al ∈ activeAlertsOf alerts pid t ↔
      al ∈ alerts ∧ al.projectId = pid ∧ al.atype = t ∧ al.isActive = true := by
  simp [activeAlertsOf, List.mem_filter, and_assoc]

theorem recentScore_eq_some (arts : List StoredArticle) (pid : Nat) (now : Rat)
    (hne : recent24Scores arts pid now ≠ [])
    (havg : ratAvg (recent24Scores arts pid now) ≠ 0) :
    recentScore arts pid now = some (ratAvg (recent24Scores arts pid now)) := by
  unfold recentScore
  simp [hne, havg]

theorem batchAnalyzeFrom_length (oc : Nat → Option AnalysisResult) :
    ∀ (l : List RawArticle) (k : Nat), (batchAnalyzeFrom oc k l).length = l.length
  | [], _ => rfl
  | a :: rest, k => by
    simp [batchAnalyzeFrom, batchAnalyzeFrom_length oc rest (k + 1)]

theorem batchAnalyzeFrom_getElem (oc : Nat → Option AnalysisResult) :
    ∀ (l : List RawArticle) (k i : Nat) (a : RawArticle), l[i]? = some a →
      (batchAnalyzeFrom oc k l)[i]?
        = some { raw := a, ann := analyzeSingleArticle (oc (k + i)) a }
  | [], _, i, a, h => by simp at h
  | b :: rest, k, 0, a, h => by
    simp only [List.getElem?_cons_zero, Option.some.injEq] at h
    subst h
    simp [batchAnalyzeFrom]
  | b :: rest, k, i + 1, a, h => by
    simp only [List.getElem?_cons_succ] at h
    have ih := batchAnalyzeFrom_getElem oc rest (k + 1) i a h
    have hk : k + 1 + i = k + (i + 1) := by omega
    rw [hk] at ih
    simpa [batchAnalyzeFrom] using ih

theorem saveLoop_length (pe : Nat → Bool) (pid : Nat) (now : Rat) :
    ∀ (l : List AnalyzedArticle) (i : Nat) (store : List StoredArticle),
      (saveLoop pe pid now i l store).1.length
          = store.length + (saveLoop pe pid now i l store).2
        ∧ (saveLoop pe pid now i l store).2 ≤ l.length
  | [], i, store => by simp [saveLoop]
  | a :: rest, i, store => by
    by_cases hp : pe i
    · have ih := saveLoop_length pe pid now rest (i + 1) store
      refine ⟨?_, ?_⟩
      · simpa [saveLoop, hp] using ih.1
      · simp only [saveLoop, hp, if_true, List.length_cons]
        exact Nat.le_succ_of_le ih.2
    · have hlen := insertIfAbsent_length store (toStoredRow pid now a)
      have ih := saveLoop_length pe pid now rest (i + 1)
        (insertIfAbsent store (toStoredRow pid now a)).1
      refine ⟨?_, ?_⟩
      · simp only [saveLoop, hp, if_false, Bool.false_eq_true]
        rw [ih.1, hlen]
        by_cases hins : (insertIfAbsent store (toStoredRow pid now a)).2 <;>
          (simp [hins]; try omega)
      · simp only [saveLoop, hp, if_false, Bool.false_eq_true, List.length_cons]
        have h2 := ih.2
        by_cases hins : (insertIfAbsent store (toStoredRow pid now a)).2 <;>
          (simp [hins]; try omega)

theorem runAttempts_all_fail (failsAt : Nat → Bool) (h : ∀ n, failsAt n = true) :
    ∀ (r a : Nat),
      runAttempts failsAt a r = (r + 1, List.replicate r scrapeRetryDelay)
  | 0, a => rfl
  | r + 1, a => by
    have ih := runAttempts_all_fail failsAt h r (a + 1)
    simp [runAttempts, h a, ih, List.replicate_succ]

theorem spikeDemoDb_count : spikeWindowCount spikeDemoDb 1 1000 = 14 := by
  norm_num [spikeWindowCount, spikeDemoDb, spikeDemoRow, mkRow, List.filter]

theorem spikeDemoDb_avg : spikeAvgDaily spikeDemoDb 1 1000 = 2 := by
  rw [spikeAvgDaily, spikeDemoDb_count]
  norm_num

theorem zeroScoreDb_recent : recent24Scores zeroScoreDb 1 1000 = [0] := by
  norm_num [recent24Scores, zeroScoreDb, mkRow, List.filter, List.filterMap_cons]

theorem zeroScoreDb_recentScore : recentScore zeroScoreDb 1 1000 = none := by
  rw [recentScore, zeroScoreDb_recent]
  norm_num [ratAvg, ratSum]

theorem zeroScoreDb_hist : historicalScore zeroScoreDb 1 1000 = 1/2 := by
  have h : histScores zeroScoreDb 1 1000 = [1/2] := by
    norm_num [histScores, zeroScoreDb, mkRow, List.filter, List.filterMap_cons]
  rw [historicalScore, h]
  norm_num [ratAvg, ratSum]

theorem specDemoDb_recent : recent24Scores specDemoDb 1 1000 = [1/2] := by
  norm_num [recent24Scores, specDemoDb, mkRow, List.filter, List.filterMap_cons]

theorem specDemoDb_hist : historicalScore specDemoDb 1 1000 = -1/10 := by
  have h : histScores specDemoDb 1 1000 = [-1/10] := by
    norm_num [histScores, specDemoDb, mkRow, List.filter, List.filterMap_cons]
  rw [historicalScore, h]
  norm_num [ratAvg, ratSum]

/-! The claims. -/

/-- C1: inserting an article whose URL is already stored (whatever run or
project produced the existing row) is a no-op reporting `false` and
changing no stored field; inserting a fresh URL stores exactly that one
row and reports `true`, and a second insert of the same URL reports
`false` and leaves exactly one row with that URL. -/
theorem article_url_dedup (store : List StoredArticle) (row row2 : StoredArticle)
    (hurl : row2.url = row.url) :
    ((∃ r ∈ store, r.url = row.url) → insertIfAbsent store row = (store, false))
    ∧ ((∀ r ∈ store, r.url ≠ row.url) →
        insertIfAbsent store row = (store ++ [row], true)
        ∧ insertIfAbsent (store ++ [row]) row2 = (store ++ [row], false)
        ∧ countUrl (insertIfAbsent (insertIfAbsent store row).1 row2).1 row.url = 1) := by
  refine ⟨insertIfAbsent_dup store row, fun hno => ?_⟩
  have h1 : insertIfAbsent store row = (store ++ [row], true) :=
    insertIfAbsent_fresh store row hno
  have h2 : insertIfAbsent (store ++ [row]) row2 = (store ++ [row], false) :=
    insertIfAbsent_dup (store ++ [row]) row2 ⟨row, by simp, hurl.symm⟩
  refine ⟨h1, h2, ?_⟩
  rw [h1, h2]
  unfold countUrl
  rw [List.filter_append]
  have hstore : store.filter (fun r => r.url == row.url) = [] := by
    rw [List.filter_eq_nil_iff]
    intro r hr
    simpa using hno r hr
  rw [hstore]
  simp

/-- C1 witness: a fresh insert of URL "u" stores one row; re-inserting the
same URL with different fields is a no-op reporting `false`, leaving
exactly one row with that URL. -/
theorem article_url_dedup_w :
    insertIfAbsent [] urlRowA = ([urlRowA], true)
    ∧ insertIfAbsent [urlRowA] urlRowB = ([urlRowA], false)
    ∧ countUrl (insertIfAbsent (insertIfAbsent [] urlRowA).1 urlRowB).1 urlRowA.url = 1 := by
  have h := (article_url_dedup [] urlRowA urlRowB rfl).2 (by simp)
  exact ⟨h.1, h.2.1, h.2.2⟩

/-- C2 counterexample: at `now = 1000` the project has one scored article
in the last 24 hours (`zeroScoreDb`, score exactly 0), yet the sentiment
detector is skipped and its active alert is never evaluated — refuting
"skipped exactly when there are zero scored articles in the window". -/
theorem sentiment_skip_cex :
    recent24Scores zeroScoreDb 1 1000 = [0]
    ∧ sentimentDemoAlert.isActive = true
    ∧ sentimentDemoAlert.atype = "sentiment_shift"
    ∧ sentimentDemoAlert.projectId = 1
    ∧ sentimentDetectorRuns zeroScoreDb 1 1000 = false
    ∧ sentimentAlertsEvaluated zeroScoreDb 1 1000 [sentimentDemoAlert] = []
    ∧ checkSentimentAlerts zeroScoreDb 1 1000 [sentimentDemoAlert] = [] := by
  refine ⟨zeroScoreDb_recent, rfl, rfl, rfl, ?_, ?_, ?_⟩
  · rw [sentimentDetectorRuns, zeroScoreDb_recentScore]
    rfl
  · rw [sentimentAlertsEvaluated, zeroScoreDb_recentScore]
  · rw [checkSentimentAlerts, zeroScoreDb_recentScore]

/-- C2 (amended): the sentiment detector is skipped exactly when the
24-hour window has no scored article or the average score of that window
is exactly 0; when it runs, it examines precisely the project's active
sentiment_shift alerts. -/
theorem sentiment_skip_amended (arts : List StoredArticle) (pid : Nat) (now : Rat)
    (alerts : List Alert) :
    (sentimentDetectorRuns arts pid now = false ↔
      recent24Scores arts pid now = [] ∨ ratAvg (recent24Scores arts pid now) = 0)
    ∧ (sentimentDetectorRuns arts pid now = true →
        sentimentAlertsEvaluated arts pid now alerts
          = activeAlertsOf alerts pid "sentiment_shift") := by
  unfold sentimentDetectorRuns sentimentAlertsEvaluated recentScore
  by_cases h1 : recent24Scores arts pid now = [] <;>
    by_cases h2 : ratAvg (recent24Scores arts pid now) = 0 <;>
      simp [h1, h2]

/-- C3 counterexample: a run whose search succeeds with zero articles is
marked completed and returns successfully, yet the schedule row is left
untouched (`scheduleNextRun = none`) — refuting "next_run is advanced on
every successful completion, including the early-return path". -/
theorem schedule_skip_cex :
    (scrapeProject emptySearchEnv).succeeded = true
    ∧ (scrapeProject emptySearchEnv).jobStatus = JobStatus.completed
    ∧ (scrapeProject emptySearchEnv).totalFound = 0
    ∧ (scrapeProject emptySearchEnv).scheduleNextRun = none := by
  decide

/-- C3 (amended): on a successful completion that found at least one
article the schedule is advanced to `now + 6` hours (regardless of how
many of them were new); on the zero-article early return the job is
completed but the schedule is not touched. -/
theorem schedule_after_completion (env : ScrapeEnv) (p : ProjectCfg)
    (hp : env.project = some p) (hc : env.hasSearchCreds = true)
    (hs : env.search.success = true) :
    (env.search.articles ≠ [] →
      (scrapeProject env).jobStatus = JobStatus.completed
      ∧ (scrapeProject env).scheduleNextRun = some (env.now + 6))
    ∧ (env.search.articles = [] →
      (scrapeProject env).jobStatus = JobStatus.completed
      ∧ (scrapeProject env).scheduleNextRun = none) := by
  rcases harts : env.search.articles with _ | ⟨a, rest⟩ <;>
    simp [scrapeProject, hp, hc, hs, allSearchTerms, harts]

/-- C3 witness: with one article found, the job completes and the
schedule is advanced by the 6-hour interval. -/
theorem schedule_after_completion_w :
    (scrapeProject oneArticleEnv).jobStatus = JobStatus.completed
    ∧ (scrapeProject oneArticleEnv).scheduleNextRun = some (oneArticleEnv.now + 6) := by
  exact (schedule_after_completion oneArticleEnv
    { name := "p", brand := "b", market := "IT" } rfl rfl rfl).1 (by decide)

/-- C4: an active spike_detection alert of the project triggers exactly
when `newArticles > avgDaily * threshold`, with strict inequality. -/
theorem spike_strict (arts : List StoredArticle) (pid : Nat) (now : Rat)
    (n : Nat) (alerts : List Alert) (al : Alert)
    (hmem : al ∈ alerts) (hpid : al.projectId = pid)
    (hact : al.isActive = true) (htype : al.atype = "spike_detection") :
    al ∈ checkSpikeAlerts arts pid now n alerts ↔
      (n : Rat) > spikeAvgDaily arts pid now * al.threshold := by
  unfold checkSpikeAlerts
  rw [List.mem_filter]
  constructor
  · rintro ⟨-, h⟩
    exact of_decide_eq_true h
  · intro h
    exact ⟨(mem_activeAlertsOf alerts pid "spike_detection" al).mpr
      ⟨hmem, hpid, htype, hact⟩, decide_eq_true h⟩

/-- C4 witness: with a 7-day average of 2.0 and threshold 1.5, 4 new
articles trigger the alert and 3 do not. -/
theorem spike_strict_w :
    spikeAvgDaily spikeDemoDb 1 1000 = 2
    ∧ spikeDemoAlert.threshold = 3/2
    ∧ spikeDemoAlert ∈ checkSpikeAlerts spikeDemoDb 1 1000 4 [spikeDemoAlert]
    ∧ spikeDemoAlert ∉ checkSpikeAlerts spikeDemoDb 1 1000 3 [spikeDemoAlert] := by
  refine ⟨spikeDemoDb_avg, rfl, ?_, ?_⟩
  · exact (spike_strict spikeDemoDb 1 1000 4 [spikeDemoAlert] spikeDemoAlert
      (by simp) rfl rfl rfl).mpr
      (by rw [spikeDemoDb_avg]; norm_num [spikeDemoAlert])
  · intro hmem
    have h := (spike_strict spikeDemoDb 1 1000 3 [spikeDemoAlert] spikeDemoAlert
      (by simp) rfl rfl rfl).mp hmem
    rw [spikeDemoDb_avg] at h
    norm_num [spikeDemoAlert] at h

/-- C5 counterexample: with one scored article in the 24-hour window
(score exactly 0, `zeroScoreDb`) and a historical average of `1/2`, the
delta `1/2` exceeds the threshold `3/10`, yet no alert triggers, because
the zero recent average makes the detector skip — refuting the claimed
"triggers iff the delta exceeds the threshold". -/
theorem sentiment_shift_cex :
    sentimentDemoAlert.isActive = true
    ∧ sentimentDemoAlert.atype = "sentiment_shift"
    ∧ sentimentDemoAlert.projectId = 1
    ∧ recent24Scores zeroScoreDb 1 1000 = [0]
    ∧ |ratAvg (recent24Scores zeroScoreDb 1 1000) - historicalScore zeroScoreDb 1 1000|
        > sentimentDemoAlert.threshold
    ∧ checkSentimentAlerts zeroScoreDb 1 1000 [sentimentDemoAlert] = [] := by
  refine ⟨rfl, rfl, rfl, zeroScoreDb_recent, ?_, ?_⟩
  · rw [zeroScoreDb_recent, zeroScoreDb_hist]
    have h0 : ratAvg [(0:Rat)] = 0 := by norm_num [ratAvg, ratSum]
    rw [h0]
    have hv : (0:Rat) - 1/2 = -(1/2) := by norm_num
    rw [hv, abs_neg, abs_of_pos (by norm_num : (0:Rat) < 1/2)]
    norm_num [sentimentDemoAlert]
  · rw [checkSentimentAlerts, zeroScoreDb_recentScore]

/-- C5 (amended): provided the 24-hour window has at least one scored
article and its average is nonzero, an active sentiment_shift alert of
the project triggers exactly when `|recent - historical| > threshold`,
and the reported direction is positive exactly when
`recent > historical`. -/
theorem sentiment_shift_amended (arts : List StoredArticle) (pid : Nat) (now : Rat)
    (alerts : List Alert) (al : Alert)
    (hne : recent24Scores arts pid now ≠ [])
    (havg : ratAvg (recent24Scores arts pid now) ≠ 0)
    (hmem : al ∈ alerts) (hpid : al.projectId = pid)
    (hact : al.isActive = true) (htype : al.atype = "sentiment_shift") :
    ((al, decide (ratAvg (recent24Scores arts pid now) > historicalScore arts pid now))
        ∈ checkSentimentAlerts arts pid now alerts
      ↔ |ratAvg (recent24Scores arts pid now) - historicalScore arts pid now|
          > al.threshold)
    ∧ (∀ d, (al, d) ∈ checkSentimentAlerts arts pid now alerts →
        d = decide (ratAvg (recent24Scores arts pid now)
          > historicalScore arts pid now)) := by
  unfold checkSentimentAlerts
  rw [recentScore_eq_some arts pid now hne havg]
  constructor
  · rw [List.mem_map]
    constructor
    · rintro ⟨x, hx, hxeq⟩
      obtain ⟨-, hx2⟩ := List.mem_filter.mp hx
      obtain ⟨hx1, -⟩ := Prod.mk.injEq .. ▸ hxeq
      subst hx1
      exact of_decide_eq_true hx2
    · intro h
      refine ⟨al, List.mem_filter.mpr ⟨?_, decide_eq_true h⟩, rfl⟩
      exact (mem_activeAlertsOf alerts pid "sentiment_shift" al).mpr
        ⟨hmem, hpid, htype, hact⟩
  · intro d hd
    rw [List.mem_map] at hd
    obtain ⟨x, -, hxeq⟩ := hd
    obtain ⟨-, hx2⟩ := Prod.mk.injEq .. ▸ hxeq
    exact hx2.symm

/-- C5 witness: the spec boundary example — recent `+0.50`, historical
`-0.10`, threshold `0.30`: delta `0.60 > 0.30`, triggers with direction
positive. -/
theorem sentiment_shift_amended_w :
    (sentimentDemoAlert, true)
      ∈ checkSentimentAlerts specDemoDb 1 1000 [sentimentDemoAlert] := by
  have hne : recent24Scores specDemoDb 1 1000 ≠ [] := by
    rw [specDemoDb_recent]; simp
  have havg2 : ratAvg (recent24Scores specDemoDb 1 1000) = 1/2 := by
    rw [specDemoDb_recent]; norm_num [ratAvg, ratSum]
  have havg : ratAvg (recent24Scores specDemoDb 1 1000) ≠ 0 := by
    rw [havg2]; norm_num
  have hdelta : |ratAvg (recent24Scores specDemoDb 1 1000)
      - historicalScore specDemoDb 1 1000| > sentimentDemoAlert.threshold := by
    rw [havg2, specDemoDb_hist]
    have hv : (1:Rat)/2 - (-1/10) = 3/5 := by norm_num
    rw [hv, abs_of_pos (by norm_num : (0:Rat) < 3/5)]
    norm_num [sentimentDemoAlert]
  have h := (sentiment_shift_amended specDemoDb 1 1000 [sentimentDemoAlert]
    sentimentDemoAlert hne havg (by simp) rfl rfl rfl).1.mpr hdelta
  have hdir : decide (ratAvg (recent24Scores specDemoDb 1 1000)
      > historicalScore specDemoDb 1 1000) = true := by
    apply decide_eq_true
    rw [havg2, specDemoDb_hist]
    norm_num
  rwa [hdir] at h

/-- C6: an article whose analysis call fails gets the neutral default
annotation (sentiment "neutral", score 0, relevance 50) instead of
aborting the batch — the analyzed list always has one entry per input —
and the 10-article run with 3 analysis failures (`c6Env`) still persists
all 10 articles and completes successfully. -/
theorem analysis_failure_neutral (oc : Nat → Option AnalysisResult)
    (arts : List RawArticle) (i : Nat) (a : RawArticle)
    (hi : arts[i]? = some a) (hfail : oc i = none) :
    (batchAnalyzeArticles oc arts).length = arts.length
    ∧ (batchAnalyzeArticles oc arts)[i]?
        = some { raw := a, ann := neutralAnalysis a }
    ∧ (neutralAnalysis a).sentiment = "neutral"
    ∧ (neutralAnalysis a).sentimentScore = 0
    ∧ (neutralAnalysis a).relevanceScore = 50
    ∧ (scrapeProject c6Env).succeeded = true
    ∧ (scrapeProject c6Env).jobStatus = JobStatus.completed
    ∧ (scrapeProject c6Env).totalFound = 10
    ∧ (scrapeProject c6Env).newArticles = 10
    ∧ (scrapeProject c6Env).store.length = 10 := by
  refine ⟨batchAnalyzeFrom_length oc arts 0, ?_, rfl, rfl, rfl,
    by decide, by decide, by decide, by decide, by decide⟩
  have h := batchAnalyzeFrom_getElem oc arts 0 i a hi
  rw [Nat.zero_add] at h
  rw [batchAnalyzeArticles, h, hfail]
  rfl

/-- C6 witness: in the 10-article run the first article's analysis fails
and it comes out of the batch with the neutral default annotation. -/
theorem analysis_failure_neutral_w :
    (batchAnalyzeArticles c6Env.analysisOutcome c6Env.search.articles)[0]?
      = some { raw := demoRaw 0, ann := neutralAnalysis (demoRaw 0) } := by
  exact (analysis_failure_neutral c6Env.analysisOutcome c6Env.search.articles
    0 (demoRaw 0) (by decide) rfl).2.1

/-- C7: a missing or inactive project fails the run with the
configuration error `projectNotFound`; the run fails with `noSearchTerms`
exactly when the built term set is empty (which cannot happen, since the
brand is always its head); and a successful search returning zero
articles yields a normal successful result with zero counts. -/
theorem run_error_contract (env : ScrapeEnv) :
    (env.project = none →
      (scrapeProject env).jobStatus = JobStatus.failed
      ∧ (scrapeProject env).jobError = some ScrapeError.projectNotFound)
    ∧ ScrapeError.isConfig ScrapeError.projectNotFound = true
    ∧ ScrapeError.isConfig ScrapeError.noSearchTerms = true
    ∧ ((scrapeProject env).jobError = some ScrapeError.noSearchTerms ↔
        ∃ p, env.project = some p
          ∧ allSearchTerms p env.keywords env.competitors = [])
    ∧ (∀ p, env.project = some p → env.hasSearchCreds = true →
        env.search.success = true → env.search.articles = [] →
        (scrapeProject env).succeeded = true
        ∧ (scrapeProject env).jobStatus = JobStatus.completed
        ∧ (scrapeProject env).jobError = none
        ∧ (scrapeProject env).newArticles = 0
        ∧ (scrapeProject env).totalFound = 0) := by
  refine ⟨?_, rfl, rfl, ?_, ?_⟩
  · intro hp
    simp [scrapeProject, hp, failedRun]
  · constructor
    · intro h
      exfalso
      cases hp : env.project with
      | none => simp [scrapeProject, hp, failedRun] at h
      | some p =>
        simp only [scrapeProject, hp] at h
        split at h
        case isTrue hcond => simp [allSearchTerms] at hcond
        case isFalse =>
          split at h
          case isTrue => simp [failedRun] at h
          case isFalse =>
            split at h
            case isTrue => simp [failedRun] at h
            case isFalse =>
              split at h
              case isTrue => simp at h
              case isFalse => simp at h
    · rintro ⟨q, hq, hterms⟩
      exact absurd hterms (by simp [allSearchTerms])
  · intro p hp hc hs ha
    simp [scrapeProject, hp, hc, hs, ha, allSearchTerms]

/-- C8: every job row is created `running` and updated exactly once, to
`completed` or to `failed`; none is left `running` when the attempt
returns or raises, and none is reopened. -/
theorem job_terminal_trace (env : ScrapeEnv) :
    (scrapeProject env).statusTrace
      = [JobStatus.running, (scrapeProject env).jobStatus]
    ∧ ((scrapeProject env).jobStatus = JobStatus.completed
        ∨ (scrapeProject env).jobStatus = JobStatus.failed)
    ∧ (scrapeProject env).jobStatus ≠ JobStatus.running
    ∧ ((scrapeProject env).succeeded = true ↔
        (scrapeProject env).jobStatus = JobStatus.completed) := by
  cases hp : env.project with
  | none => simp [scrapeProject, hp, failedRun]
  | some p =>
    simp only [scrapeProject, hp]
    split <;> [skip; split] <;> [simp [failedRun]; simp [failedRun]; split] <;>
      [simp [failedRun]; split] <;> simp

/-- C9: when every attempt fails, the task is executed once and retried
exactly `scrapeMaxRetries = 3` times, each retry preceded by the fixed
`scrapeRetryDelay = 300` second delay, and after the third retry no
further attempt occurs. -/
theorem retry_exhaustion (failsAt : Nat → Bool) (h : ∀ n, failsAt n = true) :
    retryOutcome failsAt
      = (scrapeMaxRetries + 1, List.replicate scrapeMaxRetries scrapeRetryDelay)
    ∧ scrapeMaxRetries = 3
    ∧ scrapeRetryDelay = 300
    ∧ (retryOutcome failsAt).1 = 4
    ∧ (retryOutcome failsAt).2 = [300, 300, 300] := by
  have he : retryOutcome failsAt
      = (scrapeMaxRetries + 1, List.replicate scrapeMaxRetries scrapeRetryDelay) := by
    rw [retryOutcome, runAttempts_all_fail failsAt h scrapeMaxRetries 0]
  refine ⟨he, rfl, rfl, ?_, ?_⟩ <;> rw [he] <;> rfl

/-- C9 witness: a task failing on every attempt runs 4 times in total
(1 initial + 3 retries) with a 300-second delay before each retry. -/
theorem retry_exhaustion_w :
    retryOutcome (fun _ => true) = (4, [300, 300, 300]) := by
  have h := retry_exhaustion (fun _ => true) (fun _ => rfl)
  exact h.1.trans (by decide)

/-- C10: a successful run that found articles reports
`totalFound` = the number of articles the provider returned and a
`newArticles` count equal to the number of rows actually added to the
store (so duplicates and per-item persistence errors never increase it),
with `newArticles ≤ totalFound`. -/
theorem counts_conservative (env : ScrapeEnv)
    (hs : (scrapeProject env).succeeded = true)
    (ha : env.search.articles ≠ []) :
    (scrapeProject env).totalFound = env.search.articles.length
    ∧ (scrapeProject env).newArticles ≤ (scrapeProject env).totalFound
    ∧ (scrapeProject env).store.length
        = env.store.length + (scrapeProject env).newArticles := by
  cases hp : env.project with
  | none => simp [scrapeProject, hp, failedRun] at hs
  | some p =>
    by_cases hc : env.hasSearchCreds
    case neg => simp [scrapeProject, hp, hc, failedRun, allSearchTerms] at hs
    by_cases hq : env.search.success
    case neg => simp [scrapeProject, hp, hc, hq, failedRun, allSearchTerms] at hs
    have hlen : (if env.hasGeminiKey then
          batchAnalyzeArticles env.analysisOutcome env.search.articles
        else env.search.articles.map
          (fun a => { raw := a, ann := neutralAnalysis a })).length
        = env.search.articles.length := by
      split
      · exact batchAnalyzeFrom_length env.analysisOutcome env.search.articles 0
      · exact List.length_map env.search.articles _
    have hsave := saveLoop_length env.persistErr env.projectId env.now
      (if env.hasGeminiKey then
          batchAnalyzeArticles env.analysisOutcome env.search.articles
        else env.search.articles.map
          (fun a => { raw := a, ann := neutralAnalysis a }))
      0 env.store
    rw [hlen] at hsave
    have c1 : ¬((allSearchTerms p env.keywords env.competitors).isEmpty = true) := by
      simp [allSearchTerms]
    have c2 : ¬((!env.hasSearchCreds) = true) := by simp [hc]
    have c3 : ¬((!env.search.success) = true) := by simp [hq]
    have c4 : ¬(env.search.articles.isEmpty = true) := by
      simpa [List.isEmpty_iff] using ha
    simp only [scrapeProject, hp]
    rw [if_neg c1, if_neg c2, if_neg c3, if_neg c4]
    exact ⟨rfl, hsave.2, hsave.1⟩

/-- C10 witness: the 10-article run reports totalFound 10, newArticles 10
and grows the store by exactly the reported newArticles. -/
theorem counts_conservative_w :
    (scrapeProject c6Env).totalFound = c6Env.search.articles.length
    ∧ (scrapeProject c6Env).newArticles ≤ (scrapeProject c6Env).totalFound
    ∧ (scrapeProject c6Env).store.length
        = c6Env.store.length + (scrapeProject c6Env).newArticles := by
  exact counts_conservative c6Env (by decide) (by decide)

end WebMonitor
